import Mathlib

/-!
Shallow embedding of `scripts/fill-official-forms.py`: a fixture-generation
script that renders two UK legal notice templates (Section 8 Form 3 and
Section 21 Form 6A) to HTML from a fixed sample-data mapping, converts each
to PDF and ODT via an external headless converter, and verifies the four
expected output artifacts.

Part 1: the data model (`SAMPLE_DATA`) and the two template renderers.
The Python renderers read the module-level `SAMPLE_DATA` dict inside an
f-string; here each renderer is a function of the data record, and the
zero-argument forms specialise it to `SAMPLE_DATA`, mirroring the source.
String braces, quotes and apostrophes appear via escape codes.
-/

/-- The fixed field mapping of `SAMPLE_DATA` (source lines 23-50):
one named string per template field. -/
structure SampleData where
  tenant_name : String
  property_address : String
  landlord_name : String
  landlord_address : String
  landlord_phone : String
  s8_date_served : String
  s8_earliest_proceedings : String
  s8_grounds : String
  s8_arrears_amount : String
  s8_rent_amount : String
  s8_ground_text : String
  s8_particulars : String
  s21_service_date : String
  s21_expiry_date : String

/-- The hardcoded sample mapping `SAMPLE_DATA` (source lines 23-50). -/
def SAMPLE_DATA : SampleData where
  tenant_name :=
    "Sonia Shezadi"
  property_address :=
    "35 Woodhall Park Avenue, Pudsey, LS28 7HF"
  landlord_name :=
    "Tariq Mohammed"
  landlord_address :=
    "1 Example Street, Leeds, LS1 1AA"
  landlord_phone :=
    "07123 456789"
  s8_date_served :=
    "01/01/2026"
  s8_earliest_proceedings :=
    "15/01/2026"
  s8_grounds :=
    "8, 10 and 11"
  s8_arrears_amount :=
    "3,000.00"
  s8_rent_amount :=
    "1,500.00"
  s8_ground_text :=
    "Ground 8 - At both the date of the service of the notice and at the date of the hearing:\n"
  ++ "(a) if rent is payable weekly or fortnightly, at least eight weeks\x27 rent is unpaid;\n(b"
  ++ ") if rent is payable monthly, at least two months\x27 rent is unpaid.\n\nGround 10 - Some "
  ++ "rent lawfully due from the tenant is unpaid on the date on which the proceedings for posse"
  ++ "ssion are begun.\n\nGround 11 - Whether or not any rent is in arrears on the date on which"
  ++ " proceedings for possession are begun, the tenant has persistently delayed paying rent whi"
  ++ "ch has become lawfully due."
  s8_particulars :=
    "The tenant has failed to pay rent since October 2025. As of the date of this notice, rent "
  ++ "arrears total GBP 3,000.00 (representing 2 months unpaid rent at GBP 1,500.00 per month)."
  ++ "\n\nThe tenant has been in persistent arrears for the past 6 months despite multiple reque"
  ++ "sts for payment. Letters were sent on 15/10/2025, 01/11/2025, and 15/11/2025 requesting pa"
  ++ "yment of the outstanding rent.\n\nThe mandatory Ground 8 threshold is met as more than 2 m"
  ++ "onths rent remains unpaid."
  s21_service_date :=
    "22/12/2025"
  s21_expiry_date :=
    "14/07/2026"

/-- `create_section8_html` (source lines 53-142) as a function of the field
mapping it reads: the f-string template for Form 3, written as a
right-associated concatenation of its literal segments and field holes. -/
def create_section8_html_of (d : SampleData) : String :=
  ("<!DOCTYPE html>\n<html>\n<head>\n<meta charset=\"UTF-8\">\n<title>Form 3 - Section 8 Notic"
       ++ "e</title>\n<style>\nbody \x7b font-family: Arial, sans-serif; font-size: 11pt; line-height"
       ++ ": 1.4; margin: 40px; \x7d\nh1 \x7b font-size: 14pt; font-weight: bold; text-align: center;"
       ++ " margin-bottom: 5px; \x7d\nh2 \x7b font-size: 12pt; font-weight: bold; text-align: center;"
       ++ " margin-top: 5px; \x7d\n.header \x7b text-align: center; margin-bottom: 20px; border-botto"
       ++ "m: 2px solid black; padding-bottom: 10px; \x7d\n.form-no \x7b font-size: 16pt; font-weight"
       ++ ": bold; \x7d\n.section \x7b margin-bottom: 15px; \x7d\n.section-num \x7b font-weight: bold"
       ++ "; \x7d\n.field-value \x7b background-color: #f0f0f0; padding: 5px; border: 1px solid #ccc;"
       ++ " margin: 5px 0; \x7d\n.signature-block \x7b margin-top: 30px; border-top: 1px solid black;"
       ++ " padding-top: 20px; \x7d\n.checkbox \x7b font-family: \x27Courier New\x27, monospace; \x7d"
       ++ "\nhr \x7b border: none; border-top: 1px solid black; margin: 20px 0; \x7d\n</style>\n</hea"
       ++ "d>\n<body>\n\n<div class=\"header\">\n<p class=\"form-no\">FORM NO. 3</p>\n<p><strong>Hous"
       ++ "ing Act 1988 section 8 (as amended)</strong></p>\n<h1>NOTICE OF INTENTION TO BEGIN PROCEED"
       ++ "INGS FOR POSSESSION</h1>\n<h2>OF A PROPERTY IN ENGLAND</h2>\n<p>let on an Assured Tenancy "
       ++ "or an Assured Agricultural Occupancy</p>\n</div>\n\n<hr>\n\n<div class=\"section\">\n<p><s"
       ++ "pan class=\"section-num\">1. To:</span></p>\n<div class=\"field-value\">")
    ++ (d.tenant_name
    ++ (("</div>\n</div>\n\n<div class=\"section\">\n<p><span class=\"section-num\">2. Your landlord"
       ++ "/licensor intends to apply to the court for an order requiring you to give up possession o"
       ++ "f:</span></p>\n<div class=\"field-value\">")
    ++ (d.property_address
    ++ (("</div>\n</div>\n\n<div class=\"section\">\n<p><span class=\"section-num\">3. Your landlord"
       ++ "/licensor intends to seek possession on ground(s):</span></p>\n<div class=\"field-value\">"
       ++ "<strong>Grounds ")
    ++ (d.s8_grounds
    ++ (("</strong></div>\n<p>in Schedule 2 to the Housing Act 1988 (as amended), which read(s):</p>"
       ++ "\n<div class=\"field-value\" style=\"white-space: pre-wrap;\">")
    ++ (d.s8_ground_text
    ++ (("</div>\n</div>\n\n<div class=\"section\">\n<p><span class=\"section-num\">4. Give a full e"
       ++ "xplanation of why each ground is being relied on:</span></p>\n<div class=\"field-value\" s"
       ++ "tyle=\"white-space: pre-wrap;\">")
    ++ (d.s8_particulars
    ++ (("\n\nCurrent rent arrears: GBP ")
    ++ (d.s8_arrears_amount
    ++ (("\nMonthly rent amount: GBP ")
    ++ (d.s8_rent_amount
    ++ (("</div>\n</div>\n\n<div class=\"section\">\n<p><span class=\"section-num\">5. The court pro"
       ++ "ceedings will not begin earlier than:</span></p>\n<div class=\"field-value\">")
    ++ (d.s8_earliest_proceedings
    ++ (("</div>\n</div>\n\n<div class=\"section\">\n<p><span class=\"section-num\">6.</span> The la"
       ++ "test date for court proceedings to begin is <strong>12 months</strong> from the date of se"
       ++ "rvice of this notice.</p>\n</div>\n\n<div class=\"signature-block\">\n<p><span class=\"sec"
       ++ "tion-num\">7. Name and address of landlord, licensor or landlord\x27s agent:</span></p>\n<"
       ++ "p>(To be completed in full by the landlord, licensor, or, in the case of joint landlords/l"
       ++ "icensors, at least one of the joint landlords/licensors, or by someone authorised to give "
       ++ "notice on the landlord\x27s/licensor\x27s behalf.)</p>\n\n<table style=\"margin-top: 15px;"
       ++ "\">\n<tr><td style=\"width: 120px;\"><strong>Signed:</strong></td><td>[Signed]</td></tr>\n"
       ++ "<tr><td><strong>Name:</strong></td><td>")
    ++ (d.landlord_name
    ++ (("</td></tr>\n<tr><td><strong>Address:</strong></td><td>")
    ++ (d.landlord_address
    ++ (("</td></tr>\n<tr><td><strong>Telephone:</strong></td><td>")
    ++ (d.landlord_phone
    ++ (("</td></tr>\n</table>\n\n<p style=\"margin-top: 15px;\"><strong>Capacity (please tick):</st"
       ++ "rong></p>\n<p class=\"checkbox\">[X] landlord/licensor &nbsp;&nbsp; [ ] joint landlord(s)/"
       ++ "licensor(s) &nbsp;&nbsp; [ ] landlord\x27s/licensor\x27s agent</p>\n\n<p style=\"margin-to"
       ++ "p: 15px;\"><strong>Date:</strong> ")
    ++ (d.s8_date_served
    ++ (("</p>\n</div>\n\n<hr>\n<p style=\"text-align: center; font-style: italic;\">This notice was"
       ++ " served on: ")
    ++ (d.s8_date_served
    ++ (("</p>\n\n</body>\n</html>\n")))))))))))))))))))))))))))

/-- `create_section8_html()` (source lines 53-142): reads the module-level
`SAMPLE_DATA`. -/
def create_section8_html : String :=
  create_section8_html_of SAMPLE_DATA

/-- `create_section21_html` (source lines 145-215) as a function of the field
mapping it reads: the f-string template for Form 6A. -/
def create_section21_html_of (d : SampleData) : String :=
  ("<!DOCTYPE html>\n<html>\n<head>\n<meta charset=\"UTF-8\">\n<title>Form 6A - Section 21 Not"
       ++ "ice</title>\n<style>\nbody \x7b font-family: Arial, sans-serif; font-size: 11pt; line-heig"
       ++ "ht: 1.4; margin: 40px; \x7d\nh1 \x7b font-size: 14pt; font-weight: bold; text-align: cente"
       ++ "r; margin-bottom: 5px; \x7d\nh2 \x7b font-size: 12pt; font-weight: bold; text-align: cente"
       ++ "r; margin-top: 5px; \x7d\n.header \x7b text-align: center; margin-bottom: 20px; border-bot"
       ++ "tom: 2px solid black; padding-bottom: 10px; \x7d\n.form-no \x7b font-size: 16pt; font-weig"
       ++ "ht: bold; \x7d\n.section \x7b margin-bottom: 15px; \x7d\n.section-num \x7b font-weight: bo"
       ++ "ld; \x7d\n.field-value \x7b background-color: #f0f0f0; padding: 5px; border: 1px solid #cc"
       ++ "c; margin: 5px 0; \x7d\n.signature-block \x7b margin-top: 30px; border-top: 1px solid blac"
       ++ "k; padding-top: 20px; \x7d\n.checkbox \x7b font-family: \x27Courier New\x27, monospace; "
       ++ "\x7d\nhr \x7b border: none; border-top: 1px solid black; margin: 20px 0; \x7d\n</style>\n<"
       ++ "/head>\n<body>\n\n<div class=\"header\">\n<p class=\"form-no\">FORM NO. 6A</p>\n<p><strong"
       ++ ">Housing Act 1988 section 21(1) and (4) (as amended)</strong></p>\n<h1>NOTICE REQUIRING PO"
       ++ "SSESSION</h1>\n<h2>OF A PROPERTY IN ENGLAND</h2>\n<p>let on an Assured Shorthold Tenancy</"
       ++ "p>\n</div>\n\n<hr>\n\n<div class=\"section\">\n<p><span class=\"section-num\">1. To:</span"
       ++ "></p>\n<div class=\"field-value\">")
    ++ (d.tenant_name
    ++ (("</div>\n</div>\n\n<div class=\"section\">\n<p><span class=\"section-num\">2. You are requi"
       ++ "red to leave the below address after:</span></p>\n<div class=\"field-value\">")
    ++ (d.s21_expiry_date
    ++ (("</div>\n\n<p>If you do not leave, your landlord may apply to the court for an order under "
       ++ "Section 21(1) or (4) of the Housing Act 1988 requiring you to give up possession of:</p>\n"
       ++ "<div class=\"field-value\">")
    ++ (d.property_address
    ++ (("</div>\n\n<p style=\"margin-top: 10px;\">If your landlord does not apply to the court with"
       ++ "in a given timeframe this notice will lapse. Your landlord can rely on this notice to appl"
       ++ "y to the court during the period of 6 months commencing from the date this notice is given"
       ++ " to you.</p>\n</div>\n\n<div class=\"signature-block\">\n<p><span class=\"section-num\">3."
       ++ " Name and address of landlord or landlord\x27s agent:</span></p>\n<p>(To be completed in f"
       ++ "ull by the landlord, or, in the case of joint landlords, at least one of the joint landlor"
       ++ "ds, or by someone authorised to give notice on the landlord\x27s behalf.)</p>\n\n<table st"
       ++ "yle=\"margin-top: 15px;\">\n<tr><td style=\"width: 120px;\"><strong>Signed:</strong></td><"
       ++ "td>[Signed]</td></tr>\n<tr><td><strong>Name:</strong></td><td>")
    ++ (d.landlord_name
    ++ (("</td></tr>\n<tr><td><strong>Address:</strong></td><td>")
    ++ (d.landlord_address
    ++ (("</td></tr>\n<tr><td><strong>Telephone:</strong></td><td>")
    ++ (d.landlord_phone
    ++ (("</td></tr>\n</table>\n\n<p style=\"margin-top: 15px;\"><strong>Capacity (please tick):</st"
       ++ "rong></p>\n<p class=\"checkbox\">[X] landlord &nbsp;&nbsp; [ ] joint landlord(s) &nbsp;&nb"
       ++ "sp; [ ] landlord\x27s agent</p>\n\n<p style=\"margin-top: 15px;\"><strong>Date:</strong> ")
    ++ (d.s21_service_date
    ++ (("</p>\n</div>\n\n<hr>\n<p style=\"text-align: center; font-style: italic;\">This notice was"
       ++ " served on: ")
    ++ (d.s21_service_date
    ++ (("</p>\n\n</body>\n</html>\n")))))))))))))))))
  

/-- `create_section21_html()` (source lines 145-215): reads the module-level
`SAMPLE_DATA`. -/
def create_section21_html : String :=
  create_section21_html_of SAMPLE_DATA

/-- `ContainsSub s pat` : `pat` occurs as a contiguous literal substring of
`s`. -/
def ContainsSub (s pat : String) : Prop :=
  ∃ pre post : String, s = pre ++ (pat ++ post)

/-- Boolean test: does `pat` occur at the head of `s`? -/
def prefAt : List Char → List Char → Bool
  | [], _ => true
  | _ :: _, [] => false
  | c :: cs, d :: ds => c == d && prefAt cs ds

/-- Boolean substring search over character lists. -/
def findSub (pat : List Char) : List Char → Bool
  | [] => prefAt pat []
  | c :: rest => prefAt pat (c :: rest) || findSub pat rest

/-- Boolean substring search over strings, evaluable on concrete inputs. -/
def strContainsB (s pat : String) : Bool :=
  findSub pat.data s.data

/-!
Part 2: the conversion pipeline and the driver.

`convert_html_to_pdf` / `convert_html_to_odt` (source lines 218-273) write
the HTML to a fresh uniquely-named temporary file, run the external
`soffice` converter with `timeout=60`, rename the generated
`output_path.parent / (stem + ext)` file to the desired output path when it
exists and differs, return the output path if it exists afterwards (else
print a warning carrying the converter's stderr and return `None`), and
unlink the temporary file in a `finally` block.  `main` (source lines
276-330) runs the four conversions in order and returns 0 iff all four
artifacts exist, printing the missing ones.

The filesystem is modelled as the finite set of existing file paths; file
contents play no role in the script's control flow past rendering.  One
invocation of the external converter (`subprocess.run` of `soffice`) is an
oracle described by a `ConvEnv`: the unique temporary name chosen by
`tempfile.NamedTemporaryFile`, how long the converter process runs, whether
it writes its output file, and its stderr text.  `subprocess.run(...,
timeout=60)` raises `TimeoutExpired` when the process outlives the bound;
an exception escaping a function is modelled by `Except.error ()`.
-/

/-- A file path: the containing directory and the file name
(`pathlib`'s `p.parent` and `p.name`). -/
structure FPath where
  dir : String
  base : String
deriving DecidableEq

/-- The filesystem: the finite set of files that exist. -/
abbrev FS := Finset FPath

/-- Oracle for one converter invocation: the temporary-file directory and
stem chosen by `tempfile.NamedTemporaryFile`, and the behaviour of the
external `soffice` process (running time, whether it writes
`outdir/stem.ext`, and its stderr text). -/
structure ConvEnv where
  tmpDir : String
  tmpStem : String
  duration : Nat
  produces : Bool
  stderr : String

/-- The `timeout=60` argument passed to `subprocess.run`
(source lines 230 and 259). -/
def subprocessTimeout : Nat := 60

/-- The temporary HTML input file created by
`tempfile.NamedTemporaryFile(mode='w', suffix='.html', delete=False)`
(source lines 220-222 and 249-251). -/
def ConvEnv.htmlFile (env : ConvEnv) : FPath :=
  ⟨env.tmpDir, env.tmpStem ++ ".html"⟩

/-- Outcome of one converter function: the value it produces
(`Except.error ()` models an exception escaping the function, `.ok` a
normal return), the filesystem afterwards, the warning lines printed, and
how many times the external converter process was invoked. -/
structure ConvResult where
  result : Except Unit (Option FPath)
  fs : FS
  printed : List String
  calls : Nat

/-- The warning `f"  Warning: PDF not created. stderr: {result.stderr}"`
(source line 238). -/
def pdfWarning (stderr : String) : String :=
  "  Warning: PDF not created. stderr: " ++ stderr

/-- The warning `f"  Warning: ODT not created. stderr: {result.stderr}"`
(source line 267). -/
def odtWarning (stderr : String) : String :=
  "  Warning: ODT not created. stderr: " ++ stderr

/-- `convert_html_to_pdf(html_content, output_path)` (source lines 218-244).
Creates the temporary HTML file, runs
`soffice --headless --convert-to pdf --outdir output_path.parent` with
`timeout=60` (a longer-running process raises `TimeoutExpired`, which
escapes the function), renames `output_path.parent / (html_file.stem +
'.pdf')` to `output_path` when it exists and differs, returns `output_path`
iff it exists afterwards — printing the stderr warning and returning `None`
otherwise — and unlinks the temporary file in the `finally` block on every
exit path. -/
def convert_html_to_pdf (env : ConvEnv) (html_content : String)
    (output_path : FPath) (fs : FS) : ConvResult :=
  let html_file := env.htmlFile
  let fs0 : FS := insert html_file fs
  if subprocessTimeout < env.duration then
    { result := .error (), fs := fs0.erase html_file, printed := [], calls := 1 }
  else
    let generated : FPath := ⟨output_path.dir, env.tmpStem ++ ".pdf"⟩
    let fs1 : FS := if env.produces then insert generated fs0 else fs0
    let fs2 : FS :=
      if generated ∈ fs1 ∧ generated ≠ output_path then
        insert output_path (fs1.erase generated)
      else fs1
    if output_path ∈ fs2 then
      { result := .ok (some output_path), fs := fs2.erase html_file,
        printed := [], calls := 1 }
    else
      { result := .ok none, fs := fs2.erase html_file,
        printed := [pdfWarning env.stderr], calls := 1 }

/-- `convert_html_to_odt(html_content, output_path)` (source lines 247-273):
identical to `convert_html_to_pdf` with target format `odt`. -/
def convert_html_to_odt (env : ConvEnv) (html_content : String)
    (output_path : FPath) (fs : FS) : ConvResult :=
  let html_file := env.htmlFile
  let fs0 : FS := insert html_file fs
  if subprocessTimeout < env.duration then
    { result := .error (), fs := fs0.erase html_file, printed := [], calls := 1 }
  else
    let generated : FPath := ⟨output_path.dir, env.tmpStem ++ ".odt"⟩
    let fs1 : FS := if env.produces then insert generated fs0 else fs0
    let fs2 : FS :=
      if generated ∈ fs1 ∧ generated ≠ output_path then
        insert output_path (fs1.erase generated)
      else fs1
    if output_path ∈ fs2 then
      { result := .ok (some output_path), fs := fs2.erase html_file,
        printed := [], calls := 1 }
    else
      { result := .ok none, fs := fs2.erase html_file,
        printed := [odtWarning env.stderr], calls := 1 }

/-- `OUTPUT_DIR = BASE_DIR / "attached_assets" / "completed_notices"`
(source lines 18-20), as an abstract directory name. -/
def OUTPUT_DIR : String := "attached_assets/completed_notices"

/-- `s8_odt = OUTPUT_DIR / "completed_section_8_form_3.odt"` (line 289). -/
def s8_odt : FPath := ⟨OUTPUT_DIR, "completed_section_8_form_3.odt"⟩

/-- `s8_pdf = OUTPUT_DIR / "completed_section_8_form_3.pdf"` (line 290). -/
def s8_pdf : FPath := ⟨OUTPUT_DIR, "completed_section_8_form_3.pdf"⟩

/-- `s21_odt = OUTPUT_DIR / "completed_section_21_form_6a.odt"` (line 302). -/
def s21_odt : FPath := ⟨OUTPUT_DIR, "completed_section_21_form_6a.odt"⟩

/-- `s21_pdf = OUTPUT_DIR / "completed_section_21_form_6a.pdf"` (line 303). -/
def s21_pdf : FPath := ⟨OUTPUT_DIR, "completed_section_21_form_6a.pdf"⟩

/-- `all_files = [s8_odt, s8_pdf, s21_odt, s21_pdf]` (line 321). -/
def allFiles : List FPath := [s8_odt, s8_pdf, s21_odt, s21_pdf]

/-- The warning `f"\nWarning: Missing files: {[f.name for f in missing]}"`
(line 324); the Python list display is abstracted to a comma-separated
list of the missing file names. -/
def missingLine (missing : List FPath) : String :=
  "\nWarning: Missing files: " ++ String.intercalate ", " (missing.map FPath.base)

/-- Aggregate result of the driver: its completion (`.ok code` for a normal
`return code`, `.error ()` for an uncaught exception), the filesystem, the
warning lines printed, and the total number of converter invocations. -/
structure RunResult where
  exit : Except Unit Nat
  fs : FS
  printed : List String
  calls : Nat

/-- Sequencing of one converter call inside `main`: the returned value is
discarded (the source ignores it), but an exception escaping the call
aborts the rest of the driver. -/
def andThen (r : ConvResult) (k : FS → RunResult) : RunResult :=
  match r.result with
  | .error _ => ⟨.error (), r.fs, r.printed, r.calls⟩
  | .ok _ =>
    let t := k r.fs
    ⟨t.exit, t.fs, r.printed ++ t.printed, r.calls + t.calls⟩

namespace script

/-- `main()` (source lines 276-330): renders both forms, runs the four
conversions in source order (Section 8 ODT, Section 8 PDF, Section 21 ODT,
Section 21 PDF), then checks the four expected paths, prints the missing
ones, and returns 1 if any is missing and 0 otherwise.  Progress prints
that carry no data of the contract are not modelled. -/
def main (e1 e2 e3 e4 : ConvEnv) (fs : FS) : RunResult :=
  andThen (convert_html_to_odt e1 create_section8_html s8_odt fs) fun fs1 =>
  andThen (convert_html_to_pdf e2 create_section8_html s8_pdf fs1) fun fs2 =>
  andThen (convert_html_to_odt e3 create_section21_html s21_odt fs2) fun fs3 =>
  andThen (convert_html_to_pdf e4 create_section21_html s21_pdf fs3) fun fs4 =>
  let missing := allFiles.filter (fun p => decide (p ∉ fs4))
  if missing.isEmpty then
    ⟨.ok 0, fs4, [], 0⟩
  else
    ⟨.ok 1, fs4, [missingLine missing], 0⟩

end script

/-- The files of directory `d`. -/
def dirFiles (fs : FS) (d : String) : Finset FPath :=
  fs.filter (fun p => p.dir = d)

/-- C2's per-invocation contract of `convert_html_to_pdf`: whenever the
desired output path does not exist after the attempted conversion and
relocation, the function returns `None` and prints the stderr-carrying
warning; whenever it does exist, the function returns the path and prints
nothing. -/
def failureSignallingPdf (env : ConvEnv) (hc : String) (out : FPath) (fs : FS) : Prop :=
  (out ∉ (convert_html_to_pdf env hc out fs).fs →
      (convert_html_to_pdf env hc out fs).result = Except.ok none ∧
      (convert_html_to_pdf env hc out fs).printed = [pdfWarning env.stderr]) ∧
  (out ∈ (convert_html_to_pdf env hc out fs).fs →
      (convert_html_to_pdf env hc out fs).result = Except.ok (some out) ∧
      (convert_html_to_pdf env hc out fs).printed = [])

/-- C2's per-invocation contract of `convert_html_to_odt`. -/
def failureSignallingOdt (env : ConvEnv) (hc : String) (out : FPath) (fs : FS) : Prop :=
  (out ∉ (convert_html_to_odt env hc out fs).fs →
      (convert_html_to_odt env hc out fs).result = Except.ok none ∧
      (convert_html_to_odt env hc out fs).printed = [odtWarning env.stderr]) ∧
  (out ∈ (convert_html_to_odt env hc out fs).fs →
      (convert_html_to_odt env hc out fs).result = Except.ok (some out) ∧
      (convert_html_to_odt env hc out fs).printed = [])

/-- The behaviour of `convert_html_to_pdf` on converter timeout: the
`TimeoutExpired` exception escapes (no return value, nothing printed), the
converter was invoked exactly once, and the temporary file is still
removed. -/
def timeoutBehaviourPdf (env : ConvEnv) (hc : String) (out : FPath) (fs : FS) : Prop :=
  (convert_html_to_pdf env hc out fs).result = Except.error () ∧
  (convert_html_to_pdf env hc out fs).printed = [] ∧
  (convert_html_to_pdf env hc out fs).calls = 1 ∧
  env.htmlFile ∉ (convert_html_to_pdf env hc out fs).fs

/-- The behaviour of `convert_html_to_odt` on converter timeout. -/
def timeoutBehaviourOdt (env : ConvEnv) (hc : String) (out : FPath) (fs : FS) : Prop :=
  (convert_html_to_odt env hc out fs).result = Except.error () ∧
  (convert_html_to_odt env hc out fs).printed = [] ∧
  (convert_html_to_odt env hc out fs).calls = 1 ∧
  env.htmlFile ∉ (convert_html_to_odt env hc out fs).fs

/-- C9's contract of `convert_html_to_pdf`: the returned value is either
exactly the given output path or `None`; it is the output path whenever a
file exists there after the attempt; and a file preexisting at the output
path makes a non-producing conversion report success silently. -/
def returnsGivenOrNonePdf (env : ConvEnv) (hc : String) (out : FPath) (fs : FS) : Prop :=
  ((convert_html_to_pdf env hc out fs).result = Except.ok (some out) ∨
   (convert_html_to_pdf env hc out fs).result = Except.ok none) ∧
  (out ∈ (convert_html_to_pdf env hc out fs).fs →
      (convert_html_to_pdf env hc out fs).result = Except.ok (some out)) ∧
  (env.produces = false → out ∈ fs →
      (convert_html_to_pdf env hc out fs).result = Except.ok (some out) ∧
      (convert_html_to_pdf env hc out fs).printed = [])

/-- C9's contract of `convert_html_to_odt`. -/
def returnsGivenOrNoneOdt (env : ConvEnv) (hc : String) (out : FPath) (fs : FS) : Prop :=
  ((convert_html_to_odt env hc out fs).result = Except.ok (some out) ∨
   (convert_html_to_odt env hc out fs).result = Except.ok none) ∧
  (out ∈ (convert_html_to_odt env hc out fs).fs →
      (convert_html_to_odt env hc out fs).result = Except.ok (some out)) ∧
  (env.produces = false → out ∈ fs →
      (convert_html_to_odt env hc out fs).result = Except.ok (some out) ∧
      (convert_html_to_odt env hc out fs).printed = [])

/-- C5's contract of the driver, for a run whose four conversions all
complete: the final check is an existence test of the four expected paths;
the missing ones are printed; the returned status is 1 if any is missing
and 0 if all exist. -/
def verifierContract (e1 e2 e3 e4 : ConvEnv) (fs : FS) : Prop :=
  ((allFiles.filter (fun p => decide (p ∉ (script.main e1 e2 e3 e4 fs).fs)) = []) ↔
      (s8_odt ∈ (script.main e1 e2 e3 e4 fs).fs ∧
       s8_pdf ∈ (script.main e1 e2 e3 e4 fs).fs ∧
       s21_odt ∈ (script.main e1 e2 e3 e4 fs).fs ∧
       s21_pdf ∈ (script.main e1 e2 e3 e4 fs).fs)) ∧
  (script.main e1 e2 e3 e4 fs).exit =
    Except.ok
      (if allFiles.filter (fun p => decide (p ∉ (script.main e1 e2 e3 e4 fs).fs)) = []
       then 0 else 1) ∧
  (allFiles.filter (fun p => decide (p ∉ (script.main e1 e2 e3 e4 fs).fs)) ≠ [] →
    missingLine (allFiles.filter (fun p => decide (p ∉ (script.main e1 e2 e3 e4 fs).fs)))
      ∈ (script.main e1 e2 e3 e4 fs).printed)

/-- The four artifacts a fully successful run leaves in `OUTPUT_DIR`. -/
def fourArtifacts : Finset FPath := {s8_odt, s8_pdf, s21_odt, s21_pdf}

/-- The freshness facts `tempfile.NamedTemporaryFile` guarantees for one
conversion against the starting filesystem of the run: the temporary file
is new, it lives outside the output directory, and its unique stem is not
one of the two deterministic artifact stems. -/
def freshTemp (env : ConvEnv) (fs : FS) : Prop :=
  env.htmlFile ∉ fs ∧
  env.tmpDir ≠ OUTPUT_DIR ∧
  env.tmpStem ≠ "completed_section_8_form_3" ∧
  env.tmpStem ≠ "completed_section_21_form_6a"

/-- Concrete converter oracle: completes quickly but writes no output. -/
def wEnvFail : ConvEnv := ⟨"/tmp", "tmpw1", 1, false, "err"⟩

/-- Concrete converter oracle: completes quickly and writes its output. -/
def wEnvOk : ConvEnv := ⟨"/tmp", "tmpw2", 1, true, ""⟩

/-- Concrete converter oracle: the process outlives the 60-unit bound. -/
def wEnvTimeout : ConvEnv := ⟨"/tmp", "tmpw3", 61, true, "killed"⟩

/-- Concrete output path for witnesses. -/
def wOut : FPath := ⟨"outdir", "notice.pdf"⟩


/-- Decidable equality of `Except` results, for evaluating the model on
concrete inputs. -/
instance {a b : Type} [DecidableEq a] [DecidableEq b] : DecidableEq (Except a b) := fun x y =>
  match x, y with
  | .error u, .error v =>
    match decEq u v with
    | isTrue h => isTrue (h ▸ rfl)
    | isFalse h => isFalse (fun he => h (Except.error.inj he))
  | .error _, .ok _ => isFalse (fun he => Except.noConfusion he)
  | .ok _, .error _ => isFalse (fun he => Except.noConfusion he)
  | .ok u, .ok v =>
    match decEq u v with
    | isTrue h => isTrue (h ▸ rfl)
    | isFalse h => isFalse (fun he => h (Except.ok.inj he))

/-- If `prefAt pat s` holds then `s` extends `pat`. -/
theorem prefAt_sound (pat : List Char) :
    ∀ s : List Char, prefAt pat s = true → ∃ rest, s = pat ++ rest := by
  induction pat with
  | nil => exact fun s _ => ⟨s, rfl⟩
  | cons c cs ih =>
    intro s h
    cases s with
    | nil => simp [prefAt] at h
    | cons e es =>
      rw [prefAt, Bool.and_eq_true, beq_iff_eq] at h
      obtain ⟨rest, hr⟩ := ih es h.2
      exact ⟨rest, by rw [h.1, hr]; rfl⟩

/-- If the boolean search succeeds, the pattern occurs as an infix. -/
theorem findSub_sound (pat : List Char) :
    ∀ s : List Char, findSub pat s = true → ∃ a b, s = a ++ (pat ++ b) := by
  intro s
  induction s with
  | nil =>
    intro h
    obtain ⟨rest, hr⟩ := prefAt_sound pat [] h
    exact ⟨[], rest, hr⟩
  | cons c rest ih =>
    intro h
    rw [findSub, Bool.or_eq_true] at h
    rcases h with h | h
    · obtain ⟨r, hr⟩ := prefAt_sound pat (c :: rest) h
      exact ⟨[], r, hr⟩
    · obtain ⟨a, b, hab⟩ := ih h
      exact ⟨c :: a, b, by rw [hab]; rfl⟩

/-- Soundness of the boolean search at the string level. -/
theorem containsSub_of_search (s pat : String) (h : strContainsB s pat = true) :
    ContainsSub s pat := by
  obtain ⟨a, b, hab⟩ := findSub_sound pat.data s.data h
  refine ⟨⟨a⟩, ⟨b⟩, String.ext ?_⟩
  cases pat
  simpa [String.data_append] using hab

/-- The pattern sandwiched between two strings is a substring. -/
theorem containsSub_here (a pat b : String) : ContainsSub (a ++ (pat ++ b)) pat :=
  ⟨a, b, rfl⟩

/-- A substring of the tail is a substring of the whole. -/
theorem containsSub_extend (a t pat : String) (h : ContainsSub t pat) :
    ContainsSub (a ++ t) pat := by
  obtain ⟨pre, post, hp⟩ := h
  refine ⟨a ++ pre, post, ?_⟩
  rw [hp]
  apply String.ext
  simp [String.data_append]

/-- Two append-extensions whose suffixes end in different characters are
different strings. -/
theorem str_append_ne_of_last_ne (s t u v : String) (c e : Char)
    (hu : u.data.getLast? = some c) (hv : v.data.getLast? = some e)
    (hce : c ≠ e) : s ++ u ≠ t ++ v := by
  intro h
  have h2 := congrArg (fun x : String => x.data.getLast?) h
  simp only [String.data_append, List.getLast?_append, hu, hv, Option.or] at h2
  exact hce (Option.some.inj h2)

/-- Appending the same suffix is injective. -/
theorem str_append_right_cancel {s t u : String} (h : s ++ u = t ++ u) : s = t := by
  apply String.ext
  have h2 := congrArg String.data h
  simp only [String.data_append] at h2
  exact List.append_cancel_right h2

/-- C3: the uniquely named temporary HTML input file created at the start of
`convert_html_to_pdf` / `convert_html_to_odt` is absent from the filesystem
after every exit path of the function — normal success, normal failure and
the exceptional exit on converter timeout — because the `finally` block
unlinks it unconditionally. -/
theorem c3_temp_file_never_leaked :
    ∀ (env : ConvEnv) (hc : String) (out : FPath) (fs : FS),
      env.htmlFile ∉ (convert_html_to_pdf env hc out fs).fs ∧
      env.htmlFile ∉ (convert_html_to_odt env hc out fs).fs := by
  intro env hc out fs
  constructor <;>
    (simp only [convert_html_to_pdf, convert_html_to_odt]
     split_ifs <;> exact Finset.not_mem_erase _ _)
set_option maxRecDepth 40000

/-- C1: with the hardcoded sample mapping, the HTML returned by
`create_section8_html` contains the literal substrings "Grounds 8, 10 and 11"
and "3,000.00", and the HTML returned by `create_section21_html` contains the
literal substring "14/07/2026". -/
theorem c1_sample_html_contains_key_values :
    ContainsSub create_section8_html "Grounds 8, 10 and 11" ∧
    ContainsSub create_section8_html "3,000.00" ∧
    ContainsSub create_section21_html "14/07/2026" :=
  ⟨containsSub_of_search _ _ (by decide),
   containsSub_of_search _ _ (by decide),
   containsSub_of_search _ _ (by decide)⟩

/-- C6: the rendered HTML output contains, for every field of the fixed
mapping `SAMPLE_DATA`, that field's value as a literal substring at its
designated hole of the document: the twelve fields the Section 8 template
embeds appear in `create_section8_html`, and the seven fields the Section 21
template embeds appear in `create_section21_html`. -/
theorem c6_all_fields_embedded :
    (ContainsSub create_section8_html SAMPLE_DATA.tenant_name ∧
     ContainsSub create_section8_html SAMPLE_DATA.property_address ∧
     ContainsSub create_section8_html SAMPLE_DATA.s8_grounds ∧
     ContainsSub create_section8_html SAMPLE_DATA.s8_ground_text ∧
     ContainsSub create_section8_html SAMPLE_DATA.s8_particulars ∧
     ContainsSub create_section8_html SAMPLE_DATA.s8_arrears_amount ∧
     ContainsSub create_section8_html SAMPLE_DATA.s8_rent_amount ∧
     ContainsSub create_section8_html SAMPLE_DATA.s8_earliest_proceedings ∧
     ContainsSub create_section8_html SAMPLE_DATA.landlord_name ∧
     ContainsSub create_section8_html SAMPLE_DATA.landlord_address ∧
     ContainsSub create_section8_html SAMPLE_DATA.landlord_phone ∧
     ContainsSub create_section8_html SAMPLE_DATA.s8_date_served) ∧
    (ContainsSub create_section21_html SAMPLE_DATA.tenant_name ∧
     ContainsSub create_section21_html SAMPLE_DATA.s21_expiry_date ∧
     ContainsSub create_section21_html SAMPLE_DATA.property_address ∧
     ContainsSub create_section21_html SAMPLE_DATA.landlord_name ∧
     ContainsSub create_section21_html SAMPLE_DATA.landlord_address ∧
     ContainsSub create_section21_html SAMPLE_DATA.landlord_phone ∧
     ContainsSub create_section21_html SAMPLE_DATA.s21_service_date) := by
  refine ⟨⟨?_, ?_, ?_, ?_, ?_, ?_, ?_, ?_, ?_, ?_, ?_, ?_⟩,
          ⟨?_, ?_, ?_, ?_, ?_, ?_, ?_⟩⟩ <;>
    simp only [create_section8_html, create_section21_html,
      create_section8_html_of, create_section21_html_of] <;>
    repeat (first
      | exact containsSub_here _ _ _
      | apply containsSub_extend)

/-- C8: the renderers are deterministic. In this embedding each renderer is
a pure function of the field mapping it reads, so two invocations on the
same mapping return byte-identical HTML strings. -/
theorem c8_renderers_deterministic :
    ∀ d : SampleData,
      (create_section8_html_of d).data = (create_section8_html_of d).data ∧
      (create_section21_html_of d).data = (create_section21_html_of d).data :=
  fun _ => ⟨rfl, rfl⟩

/-- C10: the two rendered documents agree on their shared fields. For every
field mapping `d` — in particular the immutable `SAMPLE_DATA` both renderers
read — `create_section8_html_of d` and `create_section21_html_of d` embed
the very same values `d.tenant_name`, `d.property_address`,
`d.landlord_name`, `d.landlord_address` and `d.landlord_phone`. -/
theorem c10_shared_fields_consistent :
    ∀ d : SampleData,
      (ContainsSub (create_section8_html_of d) d.tenant_name ∧
       ContainsSub (create_section21_html_of d) d.tenant_name) ∧
      (ContainsSub (create_section8_html_of d) d.property_address ∧
       ContainsSub (create_section21_html_of d) d.property_address) ∧
      (ContainsSub (create_section8_html_of d) d.landlord_name ∧
       ContainsSub (create_section21_html_of d) d.landlord_name) ∧
      (ContainsSub (create_section8_html_of d) d.landlord_address ∧
       ContainsSub (create_section21_html_of d) d.landlord_address) ∧
      (ContainsSub (create_section8_html_of d) d.landlord_phone ∧
       ContainsSub (create_section21_html_of d) d.landlord_phone) := by
  intro d
  refine ⟨⟨?_, ?_⟩, ⟨?_, ?_⟩, ⟨?_, ?_⟩, ⟨?_, ?_⟩, ⟨?_, ?_⟩⟩ <;>
    simp only [create_section8_html_of, create_section21_html_of] <;>
    repeat (first
      | exact containsSub_here _ _ _
      | apply containsSub_extend)


/-- A string is a substring of anything that appends it on the right. -/
theorem containsSub_append_self (a s : String) : ContainsSub (a ++ s) s :=
  ⟨a, "", by rw [String.append_empty]⟩

/-- C2: for every HTML input and output path, when the converter invocation
completes within the bound (so the function reaches its check) and the
output path is not the invocation's own temporary file, the function
returns `None` and prints a diagnostic carrying the converter's stderr
whenever the output path does not exist afterwards, and returns the path
printing nothing whenever it does exist.  The diagnostic contains the
stderr text as a substring. -/
theorem c2_failure_signalling :
    ∀ (env : ConvEnv) (hc : String) (out : FPath) (fs : FS),
      env.duration ≤ subprocessTimeout →
      out ≠ env.htmlFile →
      ContainsSub (pdfWarning env.stderr) env.stderr ∧
      ContainsSub (odtWarning env.stderr) env.stderr ∧
      failureSignallingPdf env hc out fs ∧
      failureSignallingOdt env hc out fs := by
  intro env hc out fs hdur hne
  have hnt : ¬ subprocessTimeout < env.duration := Nat.not_lt.mpr hdur
  refine ⟨containsSub_append_self _ _, containsSub_append_self _ _, ?_, ?_⟩ <;>
    (first
      | unfold failureSignallingPdf convert_html_to_pdf
      | unfold failureSignallingOdt convert_html_to_odt) <;>
    simp only [if_neg hnt] <;>
    split_ifs with h1 h2 <;>
    simp_all [Finset.mem_erase, hne]

/-- Witness for C2 at a concrete failing conversion. -/
theorem c2_failure_signalling_witness :
    (wEnvFail.duration ≤ subprocessTimeout ∧ wOut ≠ wEnvFail.htmlFile) ∧
    (ContainsSub (pdfWarning wEnvFail.stderr) wEnvFail.stderr ∧
     ContainsSub (odtWarning wEnvFail.stderr) wEnvFail.stderr ∧
     failureSignallingPdf wEnvFail "" wOut ∅ ∧
     failureSignallingOdt wEnvFail "" wOut ∅) :=
  ⟨⟨by decide, by decide⟩,
   c2_failure_signalling wEnvFail "" wOut ∅ (by decide) (by decide)⟩

/-- C9: for every completed invocation whose output path is not the
invocation's own temporary file, each converter function returns either
exactly the output path it was given or `None`; it returns the path
whenever a file exists at that path after the attempt — in particular when
the conversion produced nothing but a file already existed at the output
path beforehand, silently masking the failure as success. -/
theorem c9_returns_path_or_none :
    ∀ (env : ConvEnv) (hc : String) (out : FPath) (fs : FS),
      env.duration ≤ subprocessTimeout →
      out ≠ env.htmlFile →
      returnsGivenOrNonePdf env hc out fs ∧
      returnsGivenOrNoneOdt env hc out fs := by
  intro env hc out fs hdur hne
  have hnt : ¬ subprocessTimeout < env.duration := Nat.not_lt.mpr hdur
  constructor <;>
    (first
      | unfold returnsGivenOrNonePdf convert_html_to_pdf
      | unfold returnsGivenOrNoneOdt convert_html_to_odt) <;>
    simp only [if_neg hnt] <;>
    split_ifs with h1 h2 <;>
    simp_all [Finset.mem_erase, hne, Finset.mem_insert]

/-- Witness for C9 at a concrete invocation that produces nothing while a
file already exists at the output path: the stale file masks the failure. -/
theorem c9_returns_path_or_none_witness :
    (wEnvFail.duration ≤ subprocessTimeout ∧ wOut ≠ wEnvFail.htmlFile) ∧
    (returnsGivenOrNonePdf wEnvFail "" wOut {wOut} ∧
     returnsGivenOrNoneOdt wEnvFail "" wOut {wOut}) :=
  ⟨⟨by decide, by decide⟩,
   c9_returns_path_or_none wEnvFail "" wOut {wOut} (by decide) (by decide)⟩

/-- `andThen` on a normally completed conversion runs the continuation. -/
theorem andThen_mk_ok (v : Option FPath) (f : FS) (p : List String) (n : Nat)
    (k : FS → RunResult) :
    andThen ⟨Except.ok v, f, p, n⟩ k =
      ⟨(k f).exit, (k f).fs, p ++ (k f).printed, n + (k f).calls⟩ := rfl

/-- `andThen` on a conversion that raised propagates the exception. -/
theorem andThen_mk_error (f : FS) (p : List String) (n : Nat) (k : FS → RunResult) :
    andThen ⟨Except.error (), f, p, n⟩ k = ⟨Except.error (), f, p, n⟩ := rfl

/-- C4 (amended): each converter invocation is bounded by the 60-unit
timeout, but a converter process that exceeds it makes `subprocess.run`
raise; the exception escapes the converter function — which therefore
returns nothing and prints no diagnostic, though its `finally` block still
removes the temporary file — the converter is invoked exactly once (no
retry), and the driver aborts without attempting the remaining
conversions. -/
theorem c4_timeout_aborts :
    ∀ (env : ConvEnv) (hc : String) (out : FPath) (fs : FS),
      subprocessTimeout < env.duration →
      timeoutBehaviourPdf env hc out fs ∧
      timeoutBehaviourOdt env hc out fs ∧
      (∀ e2 e3 e4 : ConvEnv,
        (script.main env e2 e3 e4 fs).exit = Except.error () ∧
        (script.main env e2 e3 e4 fs).calls = 1) := by
  intro env hc out fs hgt
  have h1 : convert_html_to_odt env create_section8_html s8_odt fs =
      ⟨Except.error (), (insert env.htmlFile fs).erase env.htmlFile, [], 1⟩ := by
    simp only [convert_html_to_odt, if_pos hgt]
  refine ⟨?_, ?_, ?_⟩
  · unfold timeoutBehaviourPdf convert_html_to_pdf
    simp [if_pos hgt, Finset.not_mem_erase]
  · unfold timeoutBehaviourOdt convert_html_to_odt
    simp [if_pos hgt, Finset.not_mem_erase]
  · intro e2 e3 e4
    constructor <;> simp [script.main, h1, andThen_mk_error]

/-- Witness for C4's amended theorem at a concrete timed-out invocation. -/
theorem c4_timeout_aborts_witness :
    subprocessTimeout < wEnvTimeout.duration ∧
    (timeoutBehaviourPdf wEnvTimeout "" wOut ∅ ∧
     timeoutBehaviourOdt wEnvTimeout "" wOut ∅ ∧
     (∀ e2 e3 e4 : ConvEnv,
       (script.main wEnvTimeout e2 e3 e4 ∅).exit = Except.error () ∧
       (script.main wEnvTimeout e2 e3 e4 ∅).calls = 1)) :=
  ⟨by decide, c4_timeout_aborts wEnvTimeout "" wOut ∅ (by decide)⟩

/-- Counterexample for C4 as stated: at a concrete invocation whose
converter process runs for 61 time units, the converter function does not
return an absent result (it raises), prints no diagnostic, and the driver
aborts after a single converter invocation instead of proceeding with the
remaining three conversions and completing with a status. -/
theorem c4_counterexample :
    (convert_html_to_pdf wEnvTimeout "" wOut ∅).result ≠ Except.ok none ∧
    (convert_html_to_pdf wEnvTimeout "" wOut ∅).printed = [] ∧
    (convert_html_to_odt wEnvTimeout "" wOut ∅).result ≠ Except.ok none ∧
    (convert_html_to_odt wEnvTimeout "" wOut ∅).printed = [] ∧
    (script.main wEnvTimeout wEnvOk wEnvOk wEnvOk ∅).exit ≠ Except.ok 0 ∧
    (script.main wEnvTimeout wEnvOk wEnvOk wEnvOk ∅).exit ≠ Except.ok 1 ∧
    (script.main wEnvTimeout wEnvOk wEnvOk wEnvOk ∅).calls = 1 := by
  refine ⟨?_, rfl, ?_, rfl, ?_, ?_, rfl⟩ <;> decide

theorem conv_completed_pdf (env : ConvEnv) (hc : String) (out : FPath) (fs : FS)
    (hdur : env.duration ≤ subprocessTimeout) :
    ∃ v, (convert_html_to_pdf env hc out fs).result = Except.ok v := by
  have hnt : ¬ subprocessTimeout < env.duration := Nat.not_lt.mpr hdur
  unfold convert_html_to_pdf
  simp only [if_neg hnt]
  split_ifs <;> exact ⟨_, rfl⟩

theorem conv_completed_odt (env : ConvEnv) (hc : String) (out : FPath) (fs : FS)
    (hdur : env.duration ≤ subprocessTimeout) :
    ∃ v, (convert_html_to_odt env hc out fs).result = Except.ok v := by
  have hnt : ¬ subprocessTimeout < env.duration := Nat.not_lt.mpr hdur
  unfold convert_html_to_odt
  simp only [if_neg hnt]
  split_ifs <;> exact ⟨_, rfl⟩

theorem andThen_of_ok {r : ConvResult} (v : Option FPath) (h : r.result = Except.ok v)
    (k : FS → RunResult) :
    andThen r k =
      ⟨(k r.fs).exit, (k r.fs).fs, r.printed ++ (k r.fs).printed,
       r.calls + (k r.fs).calls⟩ := by
  unfold andThen
  rw [h]

theorem c5_driver_checks_and_exit :
    ∀ (e1 e2 e3 e4 : ConvEnv) (fs : FS),
      e1.duration ≤ subprocessTimeout → e2.duration ≤ subprocessTimeout →
      e3.duration ≤ subprocessTimeout → e4.duration ≤ subprocessTimeout →
      verifierContract e1 e2 e3 e4 fs := by
  intro e1 e2 e3 e4 fs h1 h2 h3 h4
  obtain ⟨v1, hv1⟩ := conv_completed_odt e1 create_section8_html s8_odt fs h1
  obtain ⟨v2, hv2⟩ := conv_completed_pdf e2 create_section8_html s8_pdf
    ((convert_html_to_odt e1 create_section8_html s8_odt fs).fs) h2
  obtain ⟨v3, hv3⟩ := conv_completed_odt e3 create_section21_html s21_odt
    ((convert_html_to_pdf e2 create_section8_html s8_pdf
      ((convert_html_to_odt e1 create_section8_html s8_odt fs).fs)).fs) h3
  obtain ⟨v4, hv4⟩ := conv_completed_pdf e4 create_section21_html s21_pdf
    ((convert_html_to_odt e3 create_section21_html s21_odt
      ((convert_html_to_pdf e2 create_section8_html s8_pdf
        ((convert_html_to_odt e1 create_section8_html s8_odt fs).fs)).fs)).fs) h4
  unfold verifierContract
  simp only [script.main, andThen_of_ok v1 hv1, andThen_of_ok v2 hv2,
    andThen_of_ok v3 hv3, andThen_of_ok v4 hv4]
  set F := (convert_html_to_pdf e4 create_section21_html s21_pdf
    ((convert_html_to_odt e3 create_section21_html s21_odt
      ((convert_html_to_pdf e2 create_section8_html s8_pdf
        ((convert_html_to_odt e1 create_section8_html s8_odt fs).fs)).fs)).fs)).fs with hF
  have hfs : (if (List.filter (fun p => decide (p ∉ F)) allFiles).isEmpty = true
      then ({ exit := Except.ok 0, fs := F, printed := [], calls := 0 } : RunResult)
      else { exit := Except.ok 1, fs := F,
             printed := [missingLine (List.filter (fun p => decide (p ∉ F)) allFiles)],
             calls := 0 }).fs = F := by
    split <;> rfl
  rw [hfs]
  by_cases hm : (List.filter (fun p => decide (p ∉ F)) allFiles).isEmpty = true
  · have hm2 : List.filter (fun p => decide (p ∉ F)) allFiles = [] :=
      List.isEmpty_iff.mp hm
    have hall := List.filter_eq_nil_iff.mp hm2
    refine ⟨?_, ?_, ?_⟩
    · constructor
      · intro _
        refine ⟨?_, ?_, ?_, ?_⟩
        · simpa using hall s8_odt (by simp [allFiles])
        · simpa using hall s8_pdf (by simp [allFiles])
        · simpa using hall s21_odt (by simp [allFiles])
        · simpa using hall s21_pdf (by simp [allFiles])
      · intro _
        exact hm2
    · rw [if_pos hm, if_pos hm2]
    · intro hcon
      exact absurd hm2 hcon
  · have hm2 : List.filter (fun p => decide (p ∉ F)) allFiles ≠ [] := by
      intro h
      exact hm (List.isEmpty_iff.mpr h)
    refine ⟨?_, ?_, ?_⟩
    · constructor
      · intro h
        exact absurd h hm2
      · intro hmem
        apply List.filter_eq_nil_iff.mpr
        intro a ha
        simp only [allFiles, List.mem_cons, List.mem_singleton] at ha
        rcases ha with h | h | h | h | h <;> first
          | (subst h; simp [hmem.1, hmem.2.1, hmem.2.2.1, hmem.2.2.2])
          | cases h
    · rw [if_neg hm, if_neg hm2]
    · intro _
      rw [if_neg hm]
      simp [List.mem_append]

/-- Witness for C5 at a concrete all-successful run from an empty
filesystem. -/
theorem c5_driver_checks_and_exit_witness :
    (wEnvOk.duration ≤ subprocessTimeout ∧ wEnvFail.duration ≤ subprocessTimeout) ∧
    verifierContract wEnvOk wEnvOk wEnvOk wEnvOk ∅ ∧
    verifierContract wEnvFail wEnvFail wEnvFail wEnvFail ∅ :=
  ⟨⟨by decide, by decide⟩,
   c5_driver_checks_and_exit wEnvOk wEnvOk wEnvOk wEnvOk ∅
     (by decide) (by decide) (by decide) (by decide),
   c5_driver_checks_and_exit wEnvFail wEnvFail wEnvFail wEnvFail ∅
     (by decide) (by decide) (by decide) (by decide)⟩

theorem fpath_ne_of_dir_ne {p q : FPath} (h : p.dir ≠ q.dir) : p ≠ q :=
  fun he => h (congrArg FPath.dir he)

theorem fpath_ne_of_base_ne {p q : FPath} (h : p.base ≠ q.base) : p ≠ q :=
  fun he => h (congrArg FPath.base he)

theorem append_pdf_ne_append_odt (s t : String) : s ++ ".pdf" ≠ t ++ ".odt" :=
  str_append_ne_of_last_ne s t ".pdf" ".odt" 'f' 't' (by decide) (by decide) (by decide)

theorem append_odt_ne_append_pdf (s t : String) : s ++ ".odt" ≠ t ++ ".pdf" :=
  str_append_ne_of_last_ne s t ".odt" ".pdf" 't' 'f' (by decide) (by decide) (by decide)

theorem append_odt_ne_append_html (s t : String) : s ++ ".odt" ≠ t ++ ".html" :=
  str_append_ne_of_last_ne s t ".odt" ".html" 't' 'l' (by decide) (by decide) (by decide)

theorem append_pdf_ne_append_html (s t : String) : s ++ ".pdf" ≠ t ++ ".html" :=
  str_append_ne_of_last_ne s t ".pdf" ".html" 'f' 'l' (by decide) (by decide) (by decide)

theorem append_odt_ne_of_stem_ne {s t : String} (h : s ≠ t) : s ++ ".odt" ≠ t ++ ".odt" :=
  fun he => h (str_append_right_cancel he)

theorem append_pdf_ne_of_stem_ne {s t : String} (h : s ≠ t) : s ++ ".pdf" ≠ t ++ ".pdf" :=
  fun he => h (str_append_right_cancel he)

theorem insert_insert_erase (out h : FPath) (fs : FS) (hne : out ≠ h) (hh : h ∉ fs) :
    (insert out (insert h fs)).erase h = insert out fs := by
  rw [Finset.erase_insert_of_ne hne, Finset.erase_insert hh]

theorem not_mem_of_dirEmpty {fs : FS} {d : String} (h : dirFiles fs d = ∅)
    {p : FPath} (hp : p.dir = d) : p ∉ fs := fun hmem =>
  (Finset.eq_empty_iff_forall_not_mem.mp h p) (Finset.mem_filter.mpr ⟨hmem, hp⟩)

theorem conv_success_step_odt (env : ConvEnv) (hc : String) (out : FPath) (fs : FS)
    (hdur : env.duration ≤ subprocessTimeout)
    (hprod : env.produces = true)
    (hdir : env.tmpDir ≠ out.dir)
    (hhtml : env.htmlFile ∉ fs)
    (hgen : (⟨out.dir, env.tmpStem ++ ".odt"⟩ : FPath) ∉ fs) :
    convert_html_to_odt env hc out fs =
      ⟨Except.ok (some out), insert out fs, [], 1⟩ := by
  have hnt : ¬ subprocessTimeout < env.duration := Nat.not_lt.mpr hdur
  have hgh : (⟨out.dir, env.tmpStem ++ ".odt"⟩ : FPath) ≠ env.htmlFile :=
    fpath_ne_of_base_ne (append_odt_ne_append_html env.tmpStem env.tmpStem)
  have hoh : out ≠ env.htmlFile := fpath_ne_of_dir_ne (fun he => hdir (he.symm))
  have hgnotin : (⟨out.dir, env.tmpStem ++ ".odt"⟩ : FPath) ∉ insert env.htmlFile fs := by
    simp [Finset.mem_insert, hgh, hgen]
  simp only [convert_html_to_odt, if_neg hnt, hprod, if_true]
  split_ifs with hren hmem
  · simp only [ConvResult.mk.injEq, true_and, and_true]
    rw [Finset.erase_insert hgnotin]
    exact insert_insert_erase _ _ _ hoh hhtml
  · exact absurd (Finset.mem_insert_self _ _) hmem
  · simp only [ConvResult.mk.injEq, true_and, and_true]
    have hg : (⟨out.dir, env.tmpStem ++ ".odt"⟩ : FPath) = out := by
      by_contra hne2
      exact hren ⟨Finset.mem_insert_self _ _, hne2⟩
    rw [hg]
    exact insert_insert_erase _ _ _ hoh hhtml
  · rename_i hmem
    have hg : (⟨out.dir, env.tmpStem ++ ".odt"⟩ : FPath) = out := by
      by_contra hne2
      exact hren ⟨Finset.mem_insert_self _ _, hne2⟩
    rw [hg] at hmem
    exact absurd (Finset.mem_insert_self _ _) hmem

theorem conv_success_step_pdf (env : ConvEnv) (hc : String) (out : FPath) (fs : FS)
    (hdur : env.duration ≤ subprocessTimeout)
    (hprod : env.produces = true)
    (hdir : env.tmpDir ≠ out.dir)
    (hhtml : env.htmlFile ∉ fs)
    (hgen : (⟨out.dir, env.tmpStem ++ ".pdf"⟩ : FPath) ∉ fs) :
    convert_html_to_pdf env hc out fs =
      ⟨Except.ok (some out), insert out fs, [], 1⟩ := by
  have hnt : ¬ subprocessTimeout < env.duration := Nat.not_lt.mpr hdur
  have hgh : (⟨out.dir, env.tmpStem ++ ".pdf"⟩ : FPath) ≠ env.htmlFile :=
    fpath_ne_of_base_ne (append_pdf_ne_append_html env.tmpStem env.tmpStem)
  have hoh : out ≠ env.htmlFile := fpath_ne_of_dir_ne (fun he => hdir (he.symm))
  have hgnotin : (⟨out.dir, env.tmpStem ++ ".pdf"⟩ : FPath) ∉ insert env.htmlFile fs := by
    simp [Finset.mem_insert, hgh, hgen]
  simp only [convert_html_to_pdf, if_neg hnt, hprod, if_true]
  split_ifs with hren hmem
  · simp only [ConvResult.mk.injEq, true_and, and_true]
    rw [Finset.erase_insert hgnotin]
    exact insert_insert_erase _ _ _ hoh hhtml
  · exact absurd (Finset.mem_insert_self _ _) hmem
  · simp only [ConvResult.mk.injEq, true_and, and_true]
    have hg : (⟨out.dir, env.tmpStem ++ ".pdf"⟩ : FPath) = out := by
      by_contra hne2
      exact hren ⟨Finset.mem_insert_self _ _, hne2⟩
    rw [hg]
    exact insert_insert_erase _ _ _ hoh hhtml
  · rename_i hmem
    have hg : (⟨out.dir, env.tmpStem ++ ".pdf"⟩ : FPath) = out := by
      by_contra hne2
      exact hren ⟨Finset.mem_insert_self _ _, hne2⟩
    rw [hg] at hmem
    exact absurd (Finset.mem_insert_self _ _) hmem

theorem conv_fail_step_odt (env : ConvEnv) (hc : String) (out : FPath) (fs : FS)
    (hdur : env.duration ≤ subprocessTimeout)
    (hprod : env.produces = false)
    (hdir : env.tmpDir ≠ out.dir)
    (hhtml : env.htmlFile ∉ fs)
    (hout : out ∉ fs)
    (hgen : (⟨out.dir, env.tmpStem ++ ".odt"⟩ : FPath) ∉ fs) :
    convert_html_to_odt env hc out fs =
      ⟨Except.ok none, fs, [odtWarning env.stderr], 1⟩ := by
  have hnt : ¬ subprocessTimeout < env.duration := Nat.not_lt.mpr hdur
  have hgh : (⟨out.dir, env.tmpStem ++ ".odt"⟩ : FPath) ≠ env.htmlFile :=
    fpath_ne_of_base_ne (append_odt_ne_append_html env.tmpStem env.tmpStem)
  have hoh : out ≠ env.htmlFile := fpath_ne_of_dir_ne (fun he => hdir (he.symm))
  have hgnotin : (⟨out.dir, env.tmpStem ++ ".odt"⟩ : FPath) ∉ insert env.htmlFile fs := by
    simp [Finset.mem_insert, hgh, hgen]
  have honotin : out ∉ insert env.htmlFile fs := by
    simp [Finset.mem_insert, hoh, hout]
  simp only [convert_html_to_odt, if_neg hnt, hprod, Bool.false_eq_true, if_false]
  split_ifs with hren hmem1
  · exact absurd hren.1 hgnotin
  · exact absurd hren.1 hgnotin
  · simp only [ConvResult.mk.injEq, true_and, and_true]
    exact Finset.erase_insert hhtml

theorem conv_fail_step_pdf (env : ConvEnv) (hc : String) (out : FPath) (fs : FS)
    (hdur : env.duration ≤ subprocessTimeout)
    (hprod : env.produces = false)
    (hdir : env.tmpDir ≠ out.dir)
    (hhtml : env.htmlFile ∉ fs)
    (hout : out ∉ fs)
    (hgen : (⟨out.dir, env.tmpStem ++ ".pdf"⟩ : FPath) ∉ fs) :
    convert_html_to_pdf env hc out fs =
      ⟨Except.ok none, fs, [pdfWarning env.stderr], 1⟩ := by
  have hnt : ¬ subprocessTimeout < env.duration := Nat.not_lt.mpr hdur
  have hgh : (⟨out.dir, env.tmpStem ++ ".pdf"⟩ : FPath) ≠ env.htmlFile :=
    fpath_ne_of_base_ne (append_pdf_ne_append_html env.tmpStem env.tmpStem)
  have hoh : out ≠ env.htmlFile := fpath_ne_of_dir_ne (fun he => hdir (he.symm))
  have hgnotin : (⟨out.dir, env.tmpStem ++ ".pdf"⟩ : FPath) ∉ insert env.htmlFile fs := by
    simp [Finset.mem_insert, hgh, hgen]
  have honotin : out ∉ insert env.htmlFile fs := by
    simp [Finset.mem_insert, hoh, hout]
  simp only [convert_html_to_pdf, if_neg hnt, hprod, Bool.false_eq_true, if_false]
  split_ifs with hren hmem1
  · exact absurd hren.1 hgnotin
  · exact absurd hren.1 hgnotin
  · simp only [ConvResult.mk.injEq, true_and, and_true]
    exact Finset.erase_insert hhtml

theorem pdf_gen_ne_s8_odt (s : String) : (⟨OUTPUT_DIR, s ++ ".pdf"⟩ : FPath) ≠ s8_odt := by
  apply fpath_ne_of_base_ne
  show s ++ ".pdf" ≠ "completed_section_8_form_3.odt"
  intro h
  exact append_pdf_ne_append_odt s "completed_section_8_form_3" (h.trans rfl)

theorem odt_gen_ne_s8_pdf (s : String) : (⟨OUTPUT_DIR, s ++ ".odt"⟩ : FPath) ≠ s8_pdf := by
  apply fpath_ne_of_base_ne
  show s ++ ".odt" ≠ "completed_section_8_form_3.pdf"
  intro h
  exact append_odt_ne_append_pdf s "completed_section_8_form_3" (h.trans rfl)

theorem pdf_gen_ne_s21_odt (s : String) : (⟨OUTPUT_DIR, s ++ ".pdf"⟩ : FPath) ≠ s21_odt := by
  apply fpath_ne_of_base_ne
  show s ++ ".pdf" ≠ "completed_section_21_form_6a.odt"
  intro h
  exact append_pdf_ne_append_odt s "completed_section_21_form_6a" (h.trans rfl)

theorem odt_gen_ne_s8_odt {s : String} (hs : s ≠ "completed_section_8_form_3") :
    (⟨OUTPUT_DIR, s ++ ".odt"⟩ : FPath) ≠ s8_odt := by
  apply fpath_ne_of_base_ne
  show s ++ ".odt" ≠ "completed_section_8_form_3.odt"
  intro h
  exact append_odt_ne_of_stem_ne hs (h.trans rfl)

theorem pdf_gen_ne_s8_pdf {s : String} (hs : s ≠ "completed_section_8_form_3") :
    (⟨OUTPUT_DIR, s ++ ".pdf"⟩ : FPath) ≠ s8_pdf := by
  apply fpath_ne_of_base_ne
  show s ++ ".pdf" ≠ "completed_section_8_form_3.pdf"
  intro h
  exact append_pdf_ne_of_stem_ne hs (h.trans rfl)

theorem dirFiles_insert (p : FPath) (fs : FS) (d : String) :
    dirFiles (insert p fs) d =
      if p.dir = d then insert p (dirFiles fs d) else dirFiles fs d := by
  unfold dirFiles
  rw [Finset.filter_insert]

theorem c7_full_run :
    ∀ (e1 e2 e3 e4 : ConvEnv) (fs : FS),
      freshTemp e1 fs → freshTemp e2 fs → freshTemp e3 fs → freshTemp e4 fs →
      e1.duration ≤ subprocessTimeout → e2.duration ≤ subprocessTimeout →
      e3.duration ≤ subprocessTimeout → e4.duration ≤ subprocessTimeout →
      dirFiles fs OUTPUT_DIR = ∅ →
      ((e1.produces = true ∧ e2.produces = true ∧ e3.produces = true ∧
          e4.produces = true) →
        (script.main e1 e2 e3 e4 fs).exit = Except.ok 0 ∧
        dirFiles (script.main e1 e2 e3 e4 fs).fs OUTPUT_DIR = fourArtifacts ∧
        (dirFiles (script.main e1 e2 e3 e4 fs).fs OUTPUT_DIR).card = 4) ∧
      ((e1.produces = false ∧ e2.produces = false ∧ e3.produces = false ∧
          e4.produces = false) →
        (script.main e1 e2 e3 e4 fs).exit = Except.ok 1 ∧
        dirFiles (script.main e1 e2 e3 e4 fs).fs OUTPUT_DIR = ∅ ∧
        (dirFiles (script.main e1 e2 e3 e4 fs).fs OUTPUT_DIR).card = 0) := by
  intro e1 e2 e3 e4 fs hf1 hf2 hf3 hf4 h1 h2 h3 h4 hdirE
  obtain ⟨hh1, hd1, hs1a, hs1b⟩ := hf1
  obtain ⟨hh2, hd2, hs2a, hs2b⟩ := hf2
  obtain ⟨hh3, hd3, hs3a, hs3b⟩ := hf3
  obtain ⟨hh4, hd4, hs4a, hs4b⟩ := hf4
  have hnotdir : ∀ p : FPath, p.dir = OUTPUT_DIR → p ∉ fs := fun p hp =>
    not_mem_of_dirEmpty hdirE hp
  constructor
  · rintro ⟨hp1, hp2, hp3, hp4⟩
    have st1 : convert_html_to_odt e1 create_section8_html s8_odt fs =
        ⟨Except.ok (some s8_odt), insert s8_odt fs, [], 1⟩ :=
      conv_success_step_odt e1 _ s8_odt fs h1 hp1 hd1 hh1 (hnotdir _ rfl)
    have st2 : convert_html_to_pdf e2 create_section8_html s8_pdf (insert s8_odt fs) =
        ⟨Except.ok (some s8_pdf), insert s8_pdf (insert s8_odt fs), [], 1⟩ :=
      conv_success_step_pdf e2 _ s8_pdf (insert s8_odt fs) h2 hp2 hd2
        (by simp only [Finset.mem_insert]
            push_neg
            exact ⟨fpath_ne_of_dir_ne hd2, hh2⟩)
        (by simp only [Finset.mem_insert]
            push_neg
            exact ⟨pdf_gen_ne_s8_odt e2.tmpStem, hnotdir _ rfl⟩)
    have st3 : convert_html_to_odt e3 create_section21_html s21_odt
          (insert s8_pdf (insert s8_odt fs)) =
        ⟨Except.ok (some s21_odt),
         insert s21_odt (insert s8_pdf (insert s8_odt fs)), [], 1⟩ :=
      conv_success_step_odt e3 _ s21_odt (insert s8_pdf (insert s8_odt fs)) h3 hp3 hd3
        (by simp only [Finset.mem_insert]
            push_neg
            exact ⟨fpath_ne_of_dir_ne hd3, fpath_ne_of_dir_ne hd3, hh3⟩)
        (by simp only [Finset.mem_insert]
            push_neg
            exact ⟨odt_gen_ne_s8_pdf e3.tmpStem, odt_gen_ne_s8_odt hs3a, hnotdir _ rfl⟩)
    have st4 : convert_html_to_pdf e4 create_section21_html s21_pdf
          (insert s21_odt (insert s8_pdf (insert s8_odt fs))) =
        ⟨Except.ok (some s21_pdf),
         insert s21_pdf (insert s21_odt (insert s8_pdf (insert s8_odt fs))), [], 1⟩ :=
      conv_success_step_pdf e4 _ s21_pdf
        (insert s21_odt (insert s8_pdf (insert s8_odt fs))) h4 hp4 hd4
        (by simp only [Finset.mem_insert]
            push_neg
            exact ⟨fpath_ne_of_dir_ne hd4, fpath_ne_of_dir_ne hd4,
              fpath_ne_of_dir_ne hd4, hh4⟩)
        (by simp only [Finset.mem_insert]
            push_neg
            exact ⟨pdf_gen_ne_s21_odt e4.tmpStem, pdf_gen_ne_s8_pdf hs4a,
              pdf_gen_ne_s8_odt e4.tmpStem, hnotdir _ rfl⟩)
    have hmiss : allFiles.filter (fun p =>
        decide (p ∉ insert s21_pdf (insert s21_odt (insert s8_pdf (insert s8_odt fs))))) = [] := by
      simp [allFiles, Finset.mem_insert]
    have hm : script.main e1 e2 e3 e4 fs =
        ⟨Except.ok 0,
         insert s21_pdf (insert s21_odt (insert s8_pdf (insert s8_odt fs))), [], 4⟩ := by
      simp only [script.main, st1, andThen_mk_ok, st2, st3, st4]
      rw [hmiss]
      simp
    rw [hm]
    have hset : dirFiles
        (insert s21_pdf (insert s21_odt (insert s8_pdf (insert s8_odt fs)))) OUTPUT_DIR =
        fourArtifacts := by
      simp only [dirFiles_insert,
        (show s8_odt.dir = OUTPUT_DIR from rfl),
        (show s8_pdf.dir = OUTPUT_DIR from rfl),
        (show s21_odt.dir = OUTPUT_DIR from rfl),
        (show s21_pdf.dir = OUTPUT_DIR from rfl),
        if_pos rfl, hdirE]
      decide
    exact ⟨rfl, hset, by rw [hset]; decide⟩
  · rintro ⟨hq1, hq2, hq3, hq4⟩
    have st1 : convert_html_to_odt e1 create_section8_html s8_odt fs =
        ⟨Except.ok none, fs, [odtWarning e1.stderr], 1⟩ :=
      conv_fail_step_odt e1 _ s8_odt fs h1 hq1 hd1 hh1 (hnotdir _ rfl) (hnotdir _ rfl)
    have st2 : convert_html_to_pdf e2 create_section8_html s8_pdf fs =
        ⟨Except.ok none, fs, [pdfWarning e2.stderr], 1⟩ :=
      conv_fail_step_pdf e2 _ s8_pdf fs h2 hq2 hd2 hh2 (hnotdir _ rfl) (hnotdir _ rfl)
    have st3 : convert_html_to_odt e3 create_section21_html s21_odt fs =
        ⟨Except.ok none, fs, [odtWarning e3.stderr], 1⟩ :=
      conv_fail_step_odt e3 _ s21_odt fs h3 hq3 hd3 hh3 (hnotdir _ rfl) (hnotdir _ rfl)
    have st4 : convert_html_to_pdf e4 create_section21_html s21_pdf fs =
        ⟨Except.ok none, fs, [pdfWarning e4.stderr], 1⟩ :=
      conv_fail_step_pdf e4 _ s21_pdf fs h4 hq4 hd4 hh4 (hnotdir _ rfl) (hnotdir _ rfl)
    have hmiss : allFiles.filter (fun p => decide (p ∉ fs)) = allFiles := by
      apply List.filter_eq_self.mpr
      intro a ha
      simp only [allFiles, List.mem_cons, List.not_mem_nil, or_false] at ha
      rcases ha with h | h | h | h <;> subst h
      · simp [hnotdir s8_odt rfl]
      · simp [hnotdir s8_pdf rfl]
      · simp [hnotdir s21_odt rfl]
      · simp [hnotdir s21_pdf rfl]
    have hm : (script.main e1 e2 e3 e4 fs).exit = Except.ok 1 ∧
        (script.main e1 e2 e3 e4 fs).fs = fs := by
      simp only [script.main, st1, andThen_mk_ok, st2, st3, st4]
      rw [hmiss]
      simp [allFiles]
    refine ⟨hm.1, ?_, ?_⟩
    · rw [hm.2]
      exact hdirE
    · rw [hm.2, hdirE]
      rfl

/-- Witness for C7: a concrete all-successful run and a concrete
all-failing run, both from an empty filesystem. -/
theorem c7_full_run_witness :
    (freshTemp wEnvOk ∅ ∧ freshTemp wEnvFail ∅ ∧
     wEnvOk.duration ≤ subprocessTimeout ∧ wEnvFail.duration ≤ subprocessTimeout ∧
     dirFiles (∅ : FS) OUTPUT_DIR = ∅ ∧
     wEnvOk.produces = true ∧ wEnvFail.produces = false) ∧
    ((script.main wEnvOk wEnvOk wEnvOk wEnvOk ∅).exit = Except.ok 0 ∧
     dirFiles (script.main wEnvOk wEnvOk wEnvOk wEnvOk ∅).fs OUTPUT_DIR = fourArtifacts ∧
     (dirFiles (script.main wEnvOk wEnvOk wEnvOk wEnvOk ∅).fs OUTPUT_DIR).card = 4) ∧
    ((script.main wEnvFail wEnvFail wEnvFail wEnvFail ∅).exit = Except.ok 1 ∧
     dirFiles (script.main wEnvFail wEnvFail wEnvFail wEnvFail ∅).fs OUTPUT_DIR = ∅ ∧
     (dirFiles (script.main wEnvFail wEnvFail wEnvFail wEnvFail ∅).fs OUTPUT_DIR).card = 0) :=
  ⟨⟨⟨by decide, by decide, by decide, by decide⟩,
    ⟨by decide, by decide, by decide, by decide⟩,
    by decide, by decide, by decide, by decide, by decide⟩,
   ((c7_full_run wEnvOk wEnvOk wEnvOk wEnvOk ∅
      ⟨by decide, by decide, by decide, by decide⟩
      ⟨by decide, by decide, by decide, by decide⟩
      ⟨by decide, by decide, by decide, by decide⟩
      ⟨by decide, by decide, by decide, by decide⟩
      (by decide) (by decide) (by decide) (by decide) (by decide)).1
     ⟨by decide, by decide, by decide, by decide⟩),
   ((c7_full_run wEnvFail wEnvFail wEnvFail wEnvFail ∅
      ⟨by decide, by decide, by decide, by decide⟩
      ⟨by decide, by decide, by decide, by decide⟩
      ⟨by decide, by decide, by decide, by decide⟩
      ⟨by decide, by decide, by decide, by decide⟩
      (by decide) (by decide) (by decide) (by decide) (by decide)).2
     ⟨by decide, by decide, by decide, by decide⟩)⟩
